import Mathlib

/-!
Verification of the stock-checker valuation core (`utils.py`) against its
natural-language specification.

Modelling conventions, shared by every definition below:

* Python floats are embedded as exact rationals `ℚ`; the spec states all
  formulas in real arithmetic, and no claim concerns IEEE rounding.
* A Python value that may be `None` (or an absent dict key, which the source
  always tests together with `is None`) is an `Option ℚ`, with `none` for
  null/absent.
* A pandas `NaN` entry inside a statement table is also modelled as `none`:
  the source only ever observes such entries through `pd.notna`, `> 0`
  comparisons (false for NaN) or by storing them, and in each of those
  contexts `none` produces the same observable result.
* Code that swallows exceptions and returns `None` is embedded as a total
  function returning `none` on exactly the inputs whose Python evaluation
  raises (division by zero, `None` arithmetic).
* In-place mutation is embedded as explicit state passing: a function that
  mutates its argument returns the argument's post-state explicitly.
-/

/- ------------------------------------------------------------------ -/
/- Shared data model                                                   -/
/- ------------------------------------------------------------------ -/

/-- A financial statement table (`stock.cashflow`, `stock.balance_sheet`,
`stock.financials`): named rows, each holding one value per period, most
recent period first.  `none` entries model pandas NaN cells. -/
abbrev StatementTable := List (String × List (Option ℚ))

/-- Row lookup, the embedding of `'RowName' in table.index` followed by
`table.loc['RowName']`. -/
def lookupRow (tbl : StatementTable) (nm : String) : Option (List (Option ℚ)) :=
  match tbl.find? (fun r => r.1 == nm) with
  | some r => some r.2
  | none => none

/-- The fundamentals profile (the `info` dict): each field is `Option ℚ`,
`none` standing for an absent key or a `None` value (the source always tests
`'k' not in info or info['k'] is None` together, so the two are not
distinguished by any code under consideration). -/
@[ext]
structure Info where
  currentPrice : Option ℚ
  regularMarketPrice : Option ℚ
  sharesOutstanding : Option ℚ
  freeCashFlow : Option ℚ
  totalDebt : Option ℚ
  totalCash : Option ℚ
  marketCap : Option ℚ
  beta : Option ℚ
deriving DecidableEq, Repr

/- ------------------------------------------------------------------ -/
/- DcfValuator: `calculate_dcf` (src/utils.py lines 146-185)           -/
/- ------------------------------------------------------------------ -/

/-- Embedding of `calculate_dcf` (src/utils.py:146-185).  Each argument is
`Option ℚ` because the caller may pass `None`; any `None` argument makes the
Python body raise a `TypeError`, which the bare `except` turns into a `None`
return.  The three guards are the inputs on which the arithmetic raises
`ZeroDivisionError` (also caught and turned into `None`): a zero discount
factor `1 + discount_rate = 0` (raised inside the projection loop), a zero
spread `discount_rate - terminal_growth_rate = 0` (raised at the terminal
value), and zero `shares_outstanding` (raised at the final division).  On all
other inputs the body computes exactly the source's expression. -/
def calculate_dcf (free_cash_flow growth_rate discount_rate terminal_growth_rate
    shares_outstanding net_debt : Option ℚ) : Option ℚ :=
  match free_cash_flow, growth_rate, discount_rate, terminal_growth_rate,
      shares_outstanding, net_debt with
  | some fcf, some g, some d, some t, some sh, some nd =>
    if 1 + d = 0 then none
    else if d - t = 0 then none
    else if sh = 0 then none
    else
      let future_cash_flows :=
        (List.range 5).map (fun i => fcf * (1 + g) ^ (i + 1) / (1 + d) ^ (i + 1))
      let terminal_value_fcf := fcf * (1 + g) ^ 5 * (1 + t)
      let terminal_value := terminal_value_fcf / (d - t)
      let discounted_terminal_value := terminal_value / (1 + d) ^ 5
      let enterprise_value := future_cash_flows.sum + discounted_terminal_value
      let equity_value := enterprise_value - nd
      some (equity_value / sh)
  | _, _, _, _, _, _ => none

/-- The intrinsic-value formula exactly as the specification words it: the sum
over years 1..5 of discounted projected cash flows, plus the terminal value
written as a single fraction over `(discountRate - terminalGrowthRate) *
(1 + discountRate)^5`, minus net debt, all divided by shares outstanding. -/
def dcfClaimFormula (fcf g d t sh nd : ℚ) : ℚ :=
  ((∑ i in Finset.range 5, fcf * (1 + g) ^ (i + 1) / (1 + d) ^ (i + 1)) +
      fcf * (1 + g) ^ 5 * (1 + t) / ((d - t) * (1 + d) ^ 5) - nd) / sh

/- ------------------------------------------------------------------ -/
/- WaccCalculator: `calculate_wacc` (src/utils.py lines 187-250)       -/
/- ------------------------------------------------------------------ -/

/-- Embedding of the interest-expense lookup in `calculate_wacc`
(src/utils.py:211-220): starts at `0`; if the income statement is nonempty,
the most recent value of the row `Interest Expense` (else `Interest Expense
Non Operating`) is taken in absolute value.  A `none` result models a NaN
cell, whose only use downstream is a `> 0` comparison that is false. -/
def interestExpense (financials : StatementTable) : Option ℚ :=
  if financials.isEmpty then some 0
  else
    match lookupRow financials "Interest Expense" with
    | some vals => vals.head?.join.map (fun v => |v|)
    | none =>
      match lookupRow financials "Interest Expense Non Operating" with
      | some vals => vals.head?.join.map (fun v => |v|)
      | none => some 0

/-- Embedding of `calculate_wacc` (src/utils.py:187-250), with the info dict
passed explicitly (the `info is None` refetch branch is the caller's
concern).  Python truthiness of a number (`if not market_cap`, `if not
total_debt`) is `none` or `some 0`; the source's single
`if not market_cap or not total_debt` guard with its two inner returns is
written as the equivalent nested cascade.  The `cost_of_debt` guard mirrors
`total_debt and total_debt > 0 and interest_expense > 0`.  A zero
`market_cap + total_debt` makes the Python weight computation raise
`ZeroDivisionError`, caught by the outer `except` into `(None, None, None)`. -/
def calculate_wacc (info : Info) (financials : StatementTable) :
    Option ℚ × Option ℚ × Option ℚ :=
  match info.beta with
  | none => (none, none, none)
  | some beta =>
    let cost_of_equity : ℚ := 0.0425 + beta * 0.05
    let interest_expense := interestExpense financials
    let cost_of_debt : ℚ :=
      match info.totalDebt, interest_expense with
      | some td, some ie => if td ≠ 0 ∧ 0 < td ∧ 0 < ie then ie / td else 0.045
      | _, _ => 0.045
    match info.marketCap with
    | none => (none, none, none)
    | some market_cap =>
      if market_cap = 0 then (none, none, none)
      else
        match info.totalDebt with
        | none => (some cost_of_equity, some cost_of_equity, some 0)
        | some total_debt =>
          if total_debt = 0 then (some cost_of_equity, some cost_of_equity, some 0)
          else if market_cap + total_debt = 0 then (none, none, none)
          else
            let total_value := market_cap + total_debt
            let equity_weight := market_cap / total_value
            let debt_weight := total_debt / total_value
            (some (equity_weight * cost_of_equity +
                debt_weight * cost_of_debt * (1 - 0.21)),
              some cost_of_equity, some cost_of_debt)

/- ------------------------------------------------------------------ -/
/- FundamentalsNormalizer: the normalization core of `fetch_stock_info` -/
/- (src/utils.py lines 18-108)                                         -/
/- ------------------------------------------------------------------ -/

/-- The lightweight quote (`stock.fast_info`): `last_price` and `shares`.
A failed lookup is modelled as `none`. -/
structure FastQuote where
  lastPrice : Option ℚ
  shares : Option ℚ
deriving DecidableEq, Repr

/-- Fallback price from the trailing history window
(src/utils.py:36-39): the close of the most recent bar, if any; otherwise the
field keeps its current value. -/
def histPrice (cur : Option ℚ) (hist : List ℚ) : Option ℚ :=
  match hist.getLast? with
  | some c => some c
  | none => cur

/-- Price update value (src/utils.py:28-39): a truthy `last_price` from the
fast quote overwrites unconditionally; a falsy one (absent or zero) falls
back to the recent-history close; with neither source the field is left
alone.  Note this step is NOT guarded on the field being null. -/
def priceUpd (cur : Option ℚ) (fq : FastQuote) (hist : List ℚ) : Option ℚ :=
  match fq.lastPrice with
  | some p => if p = 0 then histPrice cur hist else some p
  | none => histPrice cur hist

/-- Shares update value (src/utils.py:47-52): only when the field is null,
and only a truthy (nonzero) `shares` value from the fast quote is taken. -/
def sharesUpd (cur : Option ℚ) (fq : FastQuote) : Option ℚ :=
  match cur with
  | some v => some v
  | none =>
    match fq.shares with
    | some s => if s = 0 then none else some s
    | none => none

/-- Gap filling (the common shape of the FCF/debt/cash steps): keep a present
value, otherwise take the extracted candidate (which may itself be absent). -/
def fillGap (cur v : Option ℚ) : Option ℚ :=
  match cur with
  | some x => some x
  | none => v

/-- Embedding of the `Free Cash Flow` row loop (src/utils.py:62-66): first
period value that is non-NaN and nonzero, scanning most-recent-first. -/
def firstNonNullNonZero : List (Option ℚ) → Option ℚ
  | [] => none
  | none :: rest => firstNonNullNonZero rest
  | some v :: rest => if v = 0 then firstNonNullNonZero rest else some v

/-- Embedding of the fallback loop (src/utils.py:70-75): first period where
both operating cash flow and capex are non-NaN, taking their sum. -/
def firstBothSum : List (Option ℚ × Option ℚ) → Option ℚ
  | [] => none
  | (some a, some b) :: _ => some (a + b)
  | _ :: rest => firstBothSum rest

/-- Embedding of the FCF extraction (src/utils.py:55-77): on a nonempty
cash-flow table, prefer the `Free Cash Flow` row; only when that row is
absent, fall back to `Operating Cash Flow + Capital Expenditure`. -/
def extractFcf (cf : StatementTable) : Option ℚ :=
  if cf.isEmpty then none
  else
    match lookupRow cf "Free Cash Flow" with
    | some vals => firstNonNullNonZero vals
    | none =>
      match lookupRow cf "Operating Cash Flow",
          lookupRow cf "Capital Expenditure" with
      | some ops, some capex => firstBothSum (ops.zip capex)
      | _, _ => none

/-- Most recent period value of a row (`.iloc[0]`); `none` models a NaN cell
(storing NaN into the profile is observationally the same as not storing,
for all code under consideration). -/
def headVal (vals : List (Option ℚ)) : Option ℚ :=
  vals.head?.join

/-- Embedding of the total-debt extraction (src/utils.py:80-93): on a
nonempty balance sheet, the `Total Debt` row's most recent value, else the
`Long Term Debt` row as a partial proxy. -/
def extractDebt (bs : StatementTable) : Option ℚ :=
  if bs.isEmpty then none
  else
    match lookupRow bs "Total Debt" with
    | some vals => headVal vals
    | none =>
      match lookupRow bs "Long Term Debt" with
      | some vals => headVal vals
      | none => none

/-- Embedding of the total-cash extraction (src/utils.py:95-103). -/
def extractCash (bs : StatementTable) : Option ℚ :=
  if bs.isEmpty then none
  else
    match lookupRow bs "Cash And Cash Equivalents" with
    | some vals => headVal vals
    | none =>
      match lookupRow bs "Cash Cash Equivalents And Short Term Investments" with
      | some vals => headVal vals
      | none => none

/-- Step 1 of normalization: the price refresh, which writes both
`currentPrice` and `regularMarketPrice` identically. -/
def updPrice (i : Info) (fq : FastQuote) (hist : List ℚ) : Info :=
  { i with currentPrice := priceUpd i.currentPrice fq hist,
           regularMarketPrice := priceUpd i.regularMarketPrice fq hist }

/-- Step 2: shares outstanding from the fast quote, gap-fill only. -/
def updShares (i : Info) (fq : FastQuote) : Info :=
  { i with sharesOutstanding := sharesUpd i.sharesOutstanding fq }

/-- Step 3: free cash flow from the cash-flow table, gap-fill only. -/
def updFcf (i : Info) (cf : StatementTable) : Info :=
  { i with freeCashFlow := fillGap i.freeCashFlow (extractFcf cf) }

/-- Step 4: total debt from the balance sheet, gap-fill only. -/
def updDebt (i : Info) (bs : StatementTable) : Info :=
  { i with totalDebt := fillGap i.totalDebt (extractDebt bs) }

/-- Step 5: total cash from the balance sheet, gap-fill only. -/
def updCash (i : Info) (bs : StatementTable) : Info :=
  { i with totalCash := fillGap i.totalCash (extractCash bs) }

/-- The normalization core of `fetch_stock_info` (src/utils.py:18-108) as
explicit state passing over the profile, with the provider tables, the fast
quote and the recent-price tail passed as data (a source lookup that throws
is modelled as the corresponding input being empty/absent, which the source
treats identically: the field stays as it was).  The five steps run in the
source's order: price, shares, free cash flow, total debt, total cash. -/
def normalizeFundamentals (i : Info) (cf bs : StatementTable) (fq : FastQuote)
    (hist : List ℚ) : Info :=
  updCash (updDebt (updFcf (updShares (updPrice i fq hist) fq) cf) bs) bs

/-- Modelled from the spec: the free-cash-flow rule in the claim's own words,
written with independent combinators — take the first non-null, non-zero
value of the `Free Cash Flow` row scanning most-recent-first; otherwise fall
back to `OperatingCashFlow + CapitalExpenditure` for the first period where
both are non-null, scanning most-recent-first. -/
def fcfSpec (cf : StatementTable) : Option ℚ :=
  match lookupRow cf "Free Cash Flow" with
  | some vals =>
    vals.findSome? (fun v? =>
      match v? with
      | some v => if v ≠ 0 then some v else none
      | none => none)
  | none =>
    match lookupRow cf "Operating Cash Flow",
        lookupRow cf "Capital Expenditure" with
    | some ops, some capex =>
      (ops.zip capex).findSome? (fun p =>
        match p with
        | (some a, some b) => some (a + b)
        | _ => none)
    | _, _ => none

/- ------------------------------------------------------------------ -/
/- IndicatorEngine: `calculate_indicators` (src/utils.py lines 110-144) -/
/- ------------------------------------------------------------------ -/

/-- A pandas dataframe as the indicator code observes it: a flag recording
whether the columns are a MultiIndex, a row count, and named columns of
per-row values (`none` modelling NaN, in particular the undefined warm-up
prefix of an indicator column).  Under the app's single-ticker downloads a
MultiIndex column is `(field, ticker)` with a single ticker value, so column
names are modelled by their field level throughout. -/
structure DataFrame where
  multi : Bool
  nrows : ℕ
  cols : List (String × List (Option ℚ))
deriving DecidableEq, Repr

/-- Embedding of `df.empty`: no rows or no columns. -/
def DataFrame.isEmpty (df : DataFrame) : Bool :=
  df.nrows == 0 || df.cols.isEmpty

/-- Embedding of `df.xs(df.columns.levels[1][0], axis=1, level=1)`
(src/utils.py:128): with a single ticker in the second level this selects
that ticker's slice, producing a NEW single-level frame with the same
field-named columns; the original frame is not touched. -/
def xsFirstLevel (df : DataFrame) : DataFrame :=
  { df with multi := false }

/-- Embedding of pandas column assignment `df['nm'] = vals`: replace an
existing column of that name, else append a new one. -/
def setCol (cols : List (String × List (Option ℚ))) (nm : String)
    (vals : List (Option ℚ)) : List (String × List (Option ℚ)) :=
  if cols.any (fun c => c.1 == nm) then
    cols.map (fun c => if c.1 == nm then (nm, vals) else c)
  else cols ++ [(nm, vals)]

/-- All entries present (no NaN), returning the bare values. -/
def allSome : List (Option ℚ) → Option (List ℚ)
  | [] => some []
  | none :: _ => none
  | some x :: xs => (allSome xs).map (fun r => x :: r)

/-- Modelled from the spec: the `ta.trend.sma_indicator` call is external
library code; per the spec it is the mean over a trailing window of `w`
bars, undefined (NaN) while the window is not yet filled or contains a
NaN. -/
def smaCol (closes : List (Option ℚ)) (w : ℕ) : List (Option ℚ) :=
  (List.range closes.length).map (fun i =>
    if i + 1 < w then none
    else
      match allSome ((closes.drop (i + 1 - w)).take w) with
      | some vs => some (vs.sum / (w : ℚ))
      | none => none)

/-- Wilder smoothing step: each new average is
`((n-1) * previous + current) / n`. -/
def wilderSmooth (n prev : ℚ) : List ℚ → List ℚ
  | [] => []
  | x :: xs =>
    let nxt := ((n - 1) * prev + x) / n
    nxt :: wilderSmooth n nxt xs

/-- Modelled from the spec: the `ta.momentum.rsi` call is external library
code; per the spec it is the 14-bar RSI with the standard average-gain /
average-loss smoothing, undefined for the first 14 indices.  The spec
requires a gapless close sequence, so the all-present case is the specified
domain. -/
def rsiSeq (closes : List ℚ) : List (Option ℚ) :=
  let ds := (closes.zip closes.tail).map (fun p => p.2 - p.1)
  if ds.length < 14 then closes.map (fun _ => none)
  else
    let gains := ds.map (fun d => max d 0)
    let losses := ds.map (fun d => max (-d) 0)
    let ag0 := (gains.take 14).sum / 14
    let al0 := (losses.take 14).sum / 14
    let ags := ag0 :: wilderSmooth 14 ag0 (gains.drop 14)
    let als := al0 :: wilderSmooth 14 al0 (losses.drop 14)
    let rsis := (ags.zip als).map (fun p =>
      if p.2 = 0 then (100 : ℚ) else 100 - 100 / (1 + p.1 / p.2))
    List.replicate 14 none ++ rsis.map some

/-- RSI over a close column, undefined wherever the input has a gap. -/
def rsiCol (closes : List (Option ℚ)) : List (Option ℚ) :=
  match allSome closes with
  | some xs => rsiSeq xs
  | none => closes.map (fun _ => none)

/-- Exponential moving average recursion `e = a*x + (1-a)*prev`. -/
def emaGo (a prev : ℚ) : List ℚ → List ℚ
  | [] => []
  | x :: xs =>
    let e := a * x + (1 - a) * prev
    e :: emaGo a e xs

/-- EMA with period `n` (smoothing factor `2/(n+1)`), seeded at the first
value. -/
def emaList (n : ℚ) : List ℚ → List ℚ
  | [] => []
  | x :: xs => x :: emaGo (2 / (n + 1)) x xs

/-- Mark the first `k` entries as undefined (the warm-up prefix). -/
def maskFirst (k : ℕ) (xs : List ℚ) : List (Option ℚ) :=
  ((List.range xs.length).zip xs).map (fun p =>
    if p.1 < k then none else some p.2)

/-- MACD line: 12-period EMA minus 26-period EMA of the closes. -/
def macdSeq (closes : List ℚ) : List ℚ :=
  List.zipWith (fun a b => a - b) (emaList 12 closes) (emaList 26 closes)

/-- Modelled from the spec: the `ta.trend.MACD` line, undefined until the
26-bar window is filled. -/
def macdCol (closes : List (Option ℚ)) : List (Option ℚ) :=
  match allSome closes with
  | some xs => maskFirst 25 (macdSeq xs)
  | none => closes.map (fun _ => none)

/-- Modelled from the spec: the MACD signal line, a 9-period EMA of the MACD
line, undefined until its window is filled in turn. -/
def macdSignalCol (closes : List (Option ℚ)) : List (Option ℚ) :=
  match allSome closes with
  | some xs => maskFirst 33 (emaList 9 (macdSeq xs))
  | none => closes.map (fun _ => none)

/-- The five column assignments of `calculate_indicators`
(src/utils.py:131-140), in source order.  When the frame has no `Close`
column, the first `df['Close']` read raises a `KeyError` before any
assignment; the surrounding `except` catches it and the frame is returned
unchanged. -/
def addIndicators (df : DataFrame) : DataFrame :=
  match lookupRow df.cols "Close" with
  | none => df
  | some closes =>
    let c1 := setCol df.cols "SMA_20" (smaCol closes 20)
    let c2 := setCol c1 "SMA_50" (smaCol closes 50)
    let c3 := setCol c2 "RSI" (rsiCol closes)
    let c4 := setCol c3 "MACD" (macdCol closes)
    let c5 := setCol c4 "MACD_Signal" (macdSignalCol closes)
    { df with cols := c5 }

/-- Embedding of `calculate_indicators` (src/utils.py:110-144) as explicit
state passing: the first component is the caller's dataframe object after
the call (the column assignments mutate it in place), the second the
returned value.  With single-level columns the local `df` stays aliased to
the argument, so both components coincide; in the MultiIndex branch
`df = df.xs(...)` rebinds the local name to a fresh frame, so the caller's
object is left untouched while the augmented fresh frame is returned.
`None` and empty inputs are returned unchanged. -/
def calculate_indicators (df : Option DataFrame) :
    Option DataFrame × Option DataFrame :=
  match df with
  | none => (none, none)
  | some d =>
    if d.isEmpty then (some d, some d)
    else if d.multi then (some d, some (addIndicators (xsFirstLevel d)))
    else (some (addIndicators d), some (addIndicators d))

/- ------------------------------------------------------------------ -/
/- Theorems for the DCF claims                                         -/
/- ------------------------------------------------------------------ -/

/-- C1 (amended): for numeric inputs with `discountRate ≠ terminalGrowthRate`,
`sharesOutstanding ≠ 0` and additionally a nonzero discount factor
`1 + discountRate ≠ 0`, `calculate_dcf` returns exactly the spec's closed-form
value, with no clamping of negative results. -/
theorem dcf_formula_amended (fcf g d t sh nd : ℚ)
    (hdt : d ≠ t) (hsh : sh ≠ 0) (hd1 : 1 + d ≠ 0) :
    calculate_dcf (some fcf) (some g) (some d) (some t) (some sh) (some nd) =
      some (dcfClaimFormula fcf g d t sh nd) := by
  have hsub : d - t ≠ 0 := sub_ne_zero.mpr hdt
  simp only [calculate_dcf]
  rw [if_neg hd1, if_neg hsub, if_neg hsh]
  congr 1
  unfold dcfClaimFormula
  rw [div_div (fcf * (1 + g) ^ 5 * (1 + t)) (d - t) ((1 + d) ^ 5)]
  simp only [List.range_succ, List.range_zero, List.map_append, List.map_cons,
    List.map_nil, List.sum_append, List.sum_cons, List.sum_nil,
    Finset.sum_range_succ, Finset.sum_range_zero]
  ring

/-- Witness for `dcf_formula_amended` at the spec's worked example
(fcf=100, g=0.10, d=0.10, t=0.025, shares=10, netDebt=50). -/
theorem dcf_formula_amended_witness :
    calculate_dcf (some 100) (some (1/10)) (some (1/10)) (some (1/40))
        (some 10) (some 50) =
      some (dcfClaimFormula 100 (1/10) (1/10) (1/40) 10 50) :=
  dcf_formula_amended 100 (1/10) (1/10) (1/40) 10 50
    (by norm_num) (by norm_num) (by norm_num)

/-- C1 counterexample: at `discountRate = -1` (with `discountRate ≠
terminalGrowthRate` and nonzero shares, as the claim requires) the code
raises a `ZeroDivisionError` on the zero discount factor and returns `None`,
not the claimed formula value. -/
theorem dcf_minus_one_counterexample :
    ((-1 : ℚ) ≠ (0 : ℚ)) ∧ ((10 : ℚ) ≠ 0) ∧
      calculate_dcf (some 100) (some 0) (some (-1)) (some 0) (some 10) (some 0) ≠
        some (dcfClaimFormula 100 0 (-1) 0 10 0) := by
  refine ⟨by norm_num, by norm_num, ?_⟩
  norm_num [calculate_dcf]
  exact fun hc => Option.noConfusion hc

/-- C2: whenever any of the six inputs is null, or shares outstanding is
zero, or the discount rate equals the terminal growth rate, `calculate_dcf`
returns `none`; the embedding is a total function, so no exception escapes. -/
theorem dcf_failure_null (fcf g d t sh nd : Option ℚ)
    (h : fcf = none ∨ g = none ∨ d = none ∨ t = none ∨ sh = none ∨ nd = none ∨
      sh = some 0 ∨ ∃ x, d = some x ∧ t = some x) :
    calculate_dcf fcf g d t sh nd = none := by
  cases fcf <;> cases g <;> cases d <;> cases t <;> cases sh <;> cases nd <;>
    simp only [calculate_dcf] <;>
    rcases h with h | h | h | h | h | h | h | ⟨x, hx, hx2⟩ <;>
    simp_all

/-- Witness for `dcf_failure_null`: the degenerate case
`discountRate = terminalGrowthRate = 0.10` yields `none`. -/
theorem dcf_failure_null_witness :
    calculate_dcf (some 100) (some (1/10)) (some (1/10)) (some (1/10))
        (some 10) (some 50) = none :=
  dcf_failure_null (some 100) (some (1/10)) (some (1/10)) (some (1/10))
    (some 10) (some 50)
    (Or.inr (Or.inr (Or.inr (Or.inr (Or.inr (Or.inr (Or.inr ⟨1/10, rfl, rfl⟩)))))))

/-- C8 (amended): with non-null inputs, the result is absent when the spread
`discountRate - terminalGrowthRate` is exactly zero; a strictly negative
spread does not make the computation fail. -/
theorem dcf_zero_spread_none (fcf g d t sh nd : ℚ) (h : d - t = 0) :
    calculate_dcf (some fcf) (some g) (some d) (some t) (some sh) (some nd) =
      none := by
  simp only [calculate_dcf]
  split_ifs <;> simp_all

/-- Witness for `dcf_zero_spread_none` at `d = t = 0.05`. -/
theorem dcf_zero_spread_none_witness :
    calculate_dcf (some 100) (some 0) (some (1/20)) (some (1/20))
        (some 10) (some 0) = none :=
  dcf_zero_spread_none 100 0 (1/20) (1/20) 10 0 (by norm_num)

/-- C8 counterexample: a strictly negative spread (`d - t = -0.1 ≤ 0`) does
not give an absent result — the code happily returns a (negative) value. -/
theorem dcf_negative_spread_counterexample :
    ((0 : ℚ) - 1/10 ≤ 0) ∧
      calculate_dcf (some 100) (some 0) (some 0) (some (1/10)) (some 1)
        (some 0) ≠ none := by
  refine ⟨by norm_num, ?_⟩
  norm_num [calculate_dcf]
  exact fun hc => Option.noConfusion hc

/- ------------------------------------------------------------------ -/
/- Theorems for the WACC claims                                        -/
/- ------------------------------------------------------------------ -/

/-- C3: with beta and marketCap present and nonzero but totalDebt null or
zero, `calculate_wacc` takes the all-equity branch and returns
`(costOfEquity, costOfEquity, 0.0)`, never the blended formula. -/
theorem wacc_all_equity (info : Info) (financials : StatementTable) (b m : ℚ)
    (hb : info.beta = some b) (hbne : b ≠ 0)
    (hm : info.marketCap = some m) (hmne : m ≠ 0)
    (htd : info.totalDebt = none ∨ info.totalDebt = some 0) :
    calculate_wacc info financials =
      (some (0.0425 + b * 0.05), some (0.0425 + b * 0.05), some 0) := by
  rcases htd with htd | htd <;>
    simp [calculate_wacc, hb, hm, htd, hmne]

/-- Witness for `wacc_all_equity`: beta = 1.2, marketCap = 1000,
totalDebt null gives `(0.1025, 0.1025, 0)`. -/
theorem wacc_all_equity_witness :
    calculate_wacc
        { currentPrice := none, regularMarketPrice := none,
          sharesOutstanding := none, freeCashFlow := none, totalDebt := none,
          totalCash := none, marketCap := some 1000, beta := some 1.2 } [] =
      (some 0.1025, some 0.1025, some 0) := by
  rw [wacc_all_equity _ [] 1.2 1000 rfl (by norm_num) rfl (by norm_num)
    (Or.inl rfl)]
  norm_num

/-- C4: whenever `calculate_wacc` produces a (non-null) cost of equity for a
profile whose beta is `b`, that value is exactly `0.0425 + b * 0.05`; in
particular it is exactly `0.1025` for `b = 1.2`.  (When marketCap is absent
the whole result is null and no cost of equity is produced at all.) -/
theorem wacc_cost_of_equity_capm (info : Info) (financials : StatementTable)
    (b re : ℚ) (hb : info.beta = some b)
    (hre : (calculate_wacc info financials).2.1 = some re) :
    re = 0.0425 + b * 0.05 ∧ (b = 1.2 → re = 0.1025) := by
  have hmain : re = 0.0425 + b * 0.05 := by
    rcases hmc : info.marketCap with _ | m <;>
      rcases htd : info.totalDebt with _ | td <;>
        simp only [calculate_wacc, hb, hmc, htd] at hre <;>
        (try split_ifs at hre) <;>
        simp_all
  refine ⟨hmain, fun h12 => ?_⟩
  rw [hmain, h12]
  norm_num

/-- Witness for `wacc_cost_of_equity_capm` at beta = 1.2, marketCap = 1000,
totalDebt null (the all-equity branch produces costOfEquity = 0.1025). -/
theorem wacc_cost_of_equity_capm_witness :
    (0.1025 : ℚ) = 0.0425 + (1.2 : ℚ) * 0.05 ∧
      ((1.2 : ℚ) = 1.2 → (0.1025 : ℚ) = 0.1025) :=
  wacc_cost_of_equity_capm
    { currentPrice := none, regularMarketPrice := none,
      sharesOutstanding := none, freeCashFlow := none, totalDebt := none,
      totalCash := none, marketCap := some 1000, beta := some 1.2 } []
    1.2 0.1025 rfl (by norm_num [calculate_wacc])

/-- C10: a present-but-zero marketCap (with beta non-null) is Python-falsy,
so `calculate_wacc` returns the all-null result, exactly as it does for the
same profile with marketCap null. -/
theorem wacc_zero_marketcap (info : Info) (financials : StatementTable) (b : ℚ)
    (hb : info.beta = some b) (hm : info.marketCap = some 0) :
    calculate_wacc info financials = (none, none, none) ∧
      calculate_wacc { info with marketCap := none } financials =
        (none, none, none) := by
  constructor <;> simp [calculate_wacc, hb, hm]

/-- Witness for `wacc_zero_marketcap` at beta = 1.2, marketCap = 0. -/
theorem wacc_zero_marketcap_witness :
    calculate_wacc
        { currentPrice := none, regularMarketPrice := none,
          sharesOutstanding := none, freeCashFlow := none, totalDebt := none,
          totalCash := none, marketCap := some 0, beta := some 1.2 } [] =
        (none, none, none) ∧
      calculate_wacc
        { currentPrice := none, regularMarketPrice := none,
          sharesOutstanding := none, freeCashFlow := none, totalDebt := none,
          totalCash := none, marketCap := none, beta := some 1.2 } [] =
        (none, none, none) :=
  wacc_zero_marketcap
    { currentPrice := none, regularMarketPrice := none,
      sharesOutstanding := none, freeCashFlow := none, totalDebt := none,
      totalCash := none, marketCap := some 0, beta := some 1.2 } [] 1.2 rfl rfl

/- ------------------------------------------------------------------ -/
/- Theorems for the normalization claims                               -/
/- ------------------------------------------------------------------ -/

/-- The source loop over the `Free Cash Flow` row agrees with the spec-side
first-match combinator. -/
theorem firstNonNullNonZero_findSome (vals : List (Option ℚ)) :
    firstNonNullNonZero vals = vals.findSome? (fun v? =>
      match v? with
      | some v => if v ≠ 0 then some v else none
      | none => none) := by
  induction vals with
  | nil => rfl
  | cons hd tl ih =>
    rcases hd with _ | v
    · simpa [firstNonNullNonZero, List.findSome?_cons] using ih
    · by_cases hv : v = 0 <;>
        simp [firstNonNullNonZero, List.findSome?_cons, hv, ih]

/-- The source fallback loop agrees with the spec-side first-match
combinator over zipped period pairs. -/
theorem firstBothSum_findSome (l : List (Option ℚ × Option ℚ)) :
    firstBothSum l = l.findSome? (fun p =>
      match p with
      | (some a, some b) => some (a + b)
      | _ => none) := by
  induction l with
  | nil => rfl
  | cons hd tl ih =>
    rcases hd with ⟨_ | a, _ | b⟩ <;>
      simp [firstBothSum, List.findSome?_cons, ih]

/-- The embedded FCF extraction refines the spec's wording. -/
theorem extractFcf_eq_fcfSpec (cf : StatementTable) :
    extractFcf cf = fcfSpec cf := by
  unfold extractFcf fcfSpec
  by_cases hcf : cf.isEmpty
  · have hnil : cf = [] := List.isEmpty_iff.mp hcf
    subst hnil
    simp [lookupRow]
  · rw [if_neg hcf]
    cases hrow : lookupRow cf "Free Cash Flow" with
    | some vals => simp [firstNonNullNonZero_findSome]
    | none =>
      cases hops : lookupRow cf "Operating Cash Flow" with
      | none => simp
      | some ops =>
        cases hcap : lookupRow cf "Capital Expenditure" with
        | none => simp
        | some capex => simp [firstBothSum_findSome]

/-- C5: on a profile whose freeCashFlow is null, normalization fills it with
exactly the spec-described value: the first non-null, non-zero entry of the
`Free Cash Flow` row (most-recent-first), else the first-period
`OperatingCashFlow + CapitalExpenditure` where both are non-null, else it
stays null. -/
theorem normalize_fcf_fallback (i : Info) (cf bs : StatementTable)
    (fq : FastQuote) (hist : List ℚ) (h : i.freeCashFlow = none) :
    (normalizeFundamentals i cf bs fq hist).freeCashFlow = fcfSpec cf := by
  show fillGap i.freeCashFlow (extractFcf cf) = fcfSpec cf
  rw [h]
  show extractFcf cf = fcfSpec cf
  exact extractFcf_eq_fcfSpec cf

/-- Witness for `normalize_fcf_fallback`: no `Free Cash Flow` row,
OperatingCashFlow = 100 and CapitalExpenditure = -30 in the most recent
period give normalized freeCashFlow = 70. -/
theorem normalize_fcf_fallback_witness :
    (normalizeFundamentals
        (Info.mk none none none none none none none none)
        [("Operating Cash Flow", [some 100]), ("Capital Expenditure", [some (-30)])]
        [] (FastQuote.mk none none) []).freeCashFlow = some 70 := by
  rw [normalize_fcf_fallback _ _ _ _ _ rfl]
  show some ((100 : ℚ) + (-30)) = some 70
  norm_num

/-- C6 counterexample: a profile entering normalization with
`currentPrice = 10` leaves with `currentPrice = 20` when the fast quote
reports a last price of 20 — the price step overwrites a present, non-null
value. -/
theorem normalize_price_overwrite_counterexample :
    (Info.mk (some 10) none none none none none none none).currentPrice =
        some 10 ∧
      (normalizeFundamentals (Info.mk (some 10) none none none none none none none)
          [] [] (FastQuote.mk (some 20) none) []).currentPrice = some 20 := by
  constructor
  · rfl
  · show priceUpd (some 10) (FastQuote.mk (some 20) none) [] = some 20
    norm_num [priceUpd]

/-- C6 (amended): the four non-price fields (sharesOutstanding,
freeCashFlow, totalDebt, totalCash) are never overwritten when they enter
normalization non-null; `currentPrice` (and `regularMarketPrice`), however,
is refreshed from the fast quote or the recent-history close whenever one of
those sources is available, overwriting any present value. -/
theorem normalize_preserves_nonprice (i : Info) (cf bs : StatementTable)
    (fq : FastQuote) (hist : List ℚ) :
    (∀ v : ℚ, i.sharesOutstanding = some v →
        (normalizeFundamentals i cf bs fq hist).sharesOutstanding = some v) ∧
      (∀ v : ℚ, i.freeCashFlow = some v →
        (normalizeFundamentals i cf bs fq hist).freeCashFlow = some v) ∧
      (∀ v : ℚ, i.totalDebt = some v →
        (normalizeFundamentals i cf bs fq hist).totalDebt = some v) ∧
      (∀ v : ℚ, i.totalCash = some v →
        (normalizeFundamentals i cf bs fq hist).totalCash = some v) := by
  refine ⟨fun v hv => ?_, fun v hv => ?_, fun v hv => ?_, fun v hv => ?_⟩
  · show sharesUpd i.sharesOutstanding fq = some v
    rw [hv]
    rfl
  · show fillGap i.freeCashFlow (extractFcf cf) = some v
    rw [hv]
    rfl
  · show fillGap i.totalDebt (extractDebt bs) = some v
    rw [hv]
    rfl
  · show fillGap i.totalCash (extractCash bs) = some v
    rw [hv]
    rfl

/-- Witness for `normalize_preserves_nonprice` on a profile with all four
non-price fields present: each is preserved verbatim. -/
theorem normalize_preserves_nonprice_witness :
    (normalizeFundamentals
        (Info.mk none none (some 5) (some 70) (some 40) (some 30) none none)
        [] [] (FastQuote.mk none none) []).sharesOutstanding = some 5 ∧
      (normalizeFundamentals
        (Info.mk none none (some 5) (some 70) (some 40) (some 30) none none)
        [] [] (FastQuote.mk none none) []).freeCashFlow = some 70 ∧
      (normalizeFundamentals
        (Info.mk none none (some 5) (some 70) (some 40) (some 30) none none)
        [] [] (FastQuote.mk none none) []).totalDebt = some 40 ∧
      (normalizeFundamentals
        (Info.mk none none (some 5) (some 70) (some 40) (some 30) none none)
        [] [] (FastQuote.mk none none) []).totalCash = some 30 :=
  ⟨(normalize_preserves_nonprice _ [] [] _ []).1 5 rfl,
   (normalize_preserves_nonprice _ [] [] _ []).2.1 70 rfl,
   (normalize_preserves_nonprice _ [] [] _ []).2.2.1 40 rfl,
   (normalize_preserves_nonprice _ [] [] _ []).2.2.2 30 rfl⟩

/-- Applying the price refresh twice with the same quote and history is the
same as applying it once. -/
theorem priceUpd_idem (c : Option ℚ) (fq : FastQuote) (hist : List ℚ) :
    priceUpd (priceUpd c fq hist) fq hist = priceUpd c fq hist := by
  unfold priceUpd histPrice
  rcases fq.lastPrice with _ | p
  · rcases hl : hist.getLast? with _ | cl <;> simp [hl]
  · by_cases hp0 : p = 0
    · rcases hl : hist.getLast? with _ | cl <;> simp [hp0, hl]
    · simp [hp0]

/-- Applying the shares gap-fill twice with the same quote is the same as
applying it once. -/
theorem sharesUpd_idem (c : Option ℚ) (fq : FastQuote) :
    sharesUpd (sharesUpd c fq) fq = sharesUpd c fq := by
  unfold sharesUpd
  rcases c with _ | v
  · rcases fq.shares with _ | s
    · rfl
    · by_cases hs0 : s = 0 <;> simp [hs0]
  · rfl

/-- Gap filling with a fixed candidate is idempotent. -/
theorem fillGap_idem (c v : Option ℚ) : fillGap (fillGap c v) v = fillGap c v := by
  unfold fillGap
  rcases c with _ | x
  · rcases v with _ | y <;> rfl
  · rfl

/-- C7: with the statement tables, fast quote and price-history tail held
fixed, normalization is idempotent — running it on its own output changes
nothing. -/
theorem normalize_idempotent (i : Info) (cf bs : StatementTable)
    (fq : FastQuote) (hist : List ℚ) :
    normalizeFundamentals (normalizeFundamentals i cf bs fq hist) cf bs fq hist =
      normalizeFundamentals i cf bs fq hist := by
  apply Info.ext
  · exact priceUpd_idem i.currentPrice fq hist
  · exact priceUpd_idem i.regularMarketPrice fq hist
  · exact sharesUpd_idem i.sharesOutstanding fq
  · exact fillGap_idem i.freeCashFlow (extractFcf cf)
  · exact fillGap_idem i.totalDebt (extractDebt bs)
  · exact fillGap_idem i.totalCash (extractCash bs)
  · rfl
  · rfl

/- ------------------------------------------------------------------ -/
/- Theorems for the indicator claim                                    -/
/- ------------------------------------------------------------------ -/

/-- C9 counterexample: on a one-bar single-level frame with a `Close`
column, the caller's dataframe after the call is NOT the input — the five
indicator columns have been added to it in place. -/
theorem indicators_mutation_counterexample :
    (calculate_indicators (some (DataFrame.mk false 1 [("Close", [some 1])]))).1 ≠
      some (DataFrame.mk false 1 [("Close", [some 1])]) := by
  have h1 : (calculate_indicators
      (some (DataFrame.mk false 1 [("Close", [some 1])]))).1 =
      some (DataFrame.mk false 1
        [("Close", [some 1]), ("SMA_20", [none]), ("SMA_50", [none]),
         ("RSI", [none]), ("MACD", [none]), ("MACD_Signal", [none])]) := rfl
  rw [h1]
  intro h
  injection h with h
  have hlen := congrArg (fun d => d.cols.length) h
  simp at hlen

/-- C9 (amended): `calculate_indicators` is a deterministic function of its
input, but it is not free of side effects: with single-level columns the
caller's dataframe after the call IS the returned augmented frame (the
columns are added in place); only in the MultiIndex branch (and for `None`
or empty inputs) is the caller's object left as it was. -/
theorem indicators_state_characterization (df : DataFrame) :
    (calculate_indicators (some df)).1 =
      if df.multi then some df else (calculate_indicators (some df)).2 := by
  cases he : df.isEmpty <;> cases hm : df.multi <;>
    simp [calculate_indicators, he, hm]
